import Mathlib

/-!
Verification of the MIT Schedule Advisor scheduling core.

This file is a shallow embedding of the constraint-based scheduling engine:
the data model (backend/app/models/schemas.py), the solver-relevant settings
(backend/app/core/config.py), and the schedule solver
(backend/app/services/solver/schedule_solver.py).

Conventions of the embedding:
- Python dictionaries become association lists (List (key x value)); a lookup
  is the first matching entry, mirroring dict semantics on the unique-key
  dictionaries the source passes around.
- The CP-SAT constraint model built by ScheduleSolver.solve is embedded as a
  Boolean satisfaction predicate over assignments
  (assign : course id -> term id -> Bool), one conjunct group per
  _add_*_constraints method.  The solver backend is a black box that may
  return any satisfying assignment, so properties of generated schedules are
  quantified over all satisfying assignments.
- Python floats in the scoring function are modelled as exact rationals.
- Python exceptions (the KeyError raised by the semester-order lookup on a
  summer term, the ValueError of int on a malformed term id) are modelled as
  Option results or as an explicit fallback branch where the source catches
  them.
-/

namespace ScheduleAdvisor

/-! ### Settings (backend/app/core/config.py, class Settings) -/

def SOLVER_MAX_TERMS : Nat := 8

def DEFAULT_MAX_UNITS_PER_TERM : Int := 60

def DEFAULT_MIN_UNITS_PER_TERM : Int := 36

/-! ### Data model (backend/app/models/schemas.py)

Fields that the scheduling core never consults (titles, descriptions of
courses, instructor names, API/chat schemas, ...) are omitted; everything the
solver or validator reads is kept with its source name. -/

/-- Academic term enumeration (class Term). -/
inductive Term where
  | fall
  | iap
  | spring
  | summer
deriving DecidableEq, Repr

/-- Days of the week (class DayOfWeek). -/
inductive DayOfWeek where
  | monday
  | tuesday
  | wednesday
  | thursday
  | friday
deriving DecidableEq, Repr

/-- Types of degree requirements (class RequirementType). -/
inductive RequirementType where
  | specific_course
  | category
  | units
  | elective
deriving DecidableEq, Repr

/-- Course meeting time information (class MeetingTime).  Start and end
times are kept as the raw strings of the source model; MeetingTime._parse_time
converts them to minutes since midnight. -/
structure MeetingTime where
  days : List DayOfWeek
  start_time : String
  end_time : String
deriving DecidableEq, Repr

/-- Digit value of a character, none for non-digits. -/
def char_digit? (c : Char) : Option Nat :=
  if 48 ≤ c.toNat ∧ c.toNat ≤ 57 then some (c.toNat - 48) else none

/-- Accumulator loop for reading a decimal numeral. -/
def digits_to_nat_aux (acc : Nat) : List Char → Option Nat
  | [] => some acc
  | c :: cs =>
    match char_digit? c with
    | some d => digits_to_nat_aux (acc * 10 + d) cs
    | none => none

/-- A nonempty all-digit character list as a number, none otherwise. -/
def digits_to_nat? : List Char → Option Nat
  | [] => none
  | c :: cs => digits_to_nat_aux 0 (c :: cs)

/-- str.split(sep) for a one-character separator, on the character list. -/
def split_on_char_aux (sep : Char) : List Char → List Char → List (List Char)
  | [], acc => [acc.reverse]
  | c :: cs, acc =>
    if c = sep then acc.reverse :: split_on_char_aux sep cs []
    else split_on_char_aux sep cs (c :: acc)

/-- Python int() of a string, on the numerals that occur in this program:
an optional minus sign followed by digits (int is additionally lenient about
surrounding whitespace and a plus sign, which no input here carries). -/
def str_to_int? (s : String) : Option Int :=
  match s.data with
  | '-' :: cs => (digits_to_nat? cs).map fun n => -(n : Int)
  | cs => (digits_to_nat? cs).map fun n => (n : Int)

/-- MeetingTime._parse_time: convert a time string to minutes since midnight,
returning 0 on any parse failure (the bare except branch catches both a
failed two-way unpacking of the split and a non-numeric part). -/
def _parse_time (time_str : String) : Nat :=
  match split_on_char_aux ':' time_str.data [] with
  | [h, m] =>
    match digits_to_nat? h, digits_to_nat? m with
    | some hour, some minute => hour * 60 + minute
    | _, _ => 0
  | _ => 0

/-- MeetingTime.conflicts_with: true when the day sets intersect and the
half-open time intervals overlap. -/
def MeetingTime.conflicts_with (self other : MeetingTime) : Bool :=
  -- Check if any days overlap
  if !(self.days.any fun day => decide (day ∈ other.days)) then
    false
  else
    -- Parse times
    let start1 := _parse_time self.start_time
    let end1 := _parse_time self.end_time
    let start2 := _parse_time other.start_time
    let end2 := _parse_time other.end_time
    -- Check time overlap
    decide (start1 < end2) && decide (start2 < end1)

/-- Course information (class Course).  Units are Python ints. -/
structure Course where
  id : String
  units : Int
  prerequisites : List String := []
  corequisites : List String := []
  meets_requirements : List String := []
  student_rating : Option Int := none
deriving DecidableEq, Repr

/-- Degree requirement definition (class Requirement). -/
structure Requirement where
  id : String
  major : String
  description : String
  rule_type : RequirementType
  courses_allowed : Option (List String) := none
  category : Option String := none
  units_required : Option Int := none
deriving DecidableEq, Repr

/-- Student profile (class StudentProfile).  Of the free-form preferences
dictionary the core reads only integer-valued entries (max_units_per_term),
so preferences is modelled as an integer-valued association list. -/
structure StudentProfile where
  id : String
  major : String
  year : Int
  semester : Term
  completed_courses : List String := []
  in_progress_courses : List String := []
  preferences : List (String × Int) := []
deriving DecidableEq, Repr

/-- A course scheduled in a specific term (class ScheduledCourse). -/
structure ScheduledCourse where
  course : Course
  term : String
  year : Int
  semester : Term
  meeting_times : List MeetingTime := []
deriving DecidableEq, Repr

/-- ScheduledCourse.has_time_conflict: meeting-time conflict between two
scheduled courses, false across distinct terms. -/
def ScheduledCourse.has_time_conflict (self other : ScheduledCourse) : Bool :=
  if self.term ≠ other.term then
    false
  else
    self.meeting_times.any fun mt1 =>
      other.meeting_times.any fun mt2 => mt1.conflicts_with mt2

/-- All courses in a specific term (class ScheduledTerm). -/
structure ScheduledTerm where
  year : Int
  semester : Term
  courses : List ScheduledCourse := []
deriving DecidableEq, Repr

/-- ScheduledTerm.total_units: sum of the units of the courses of the term. -/
def ScheduledTerm.total_units (t : ScheduledTerm) : Int :=
  (t.courses.map fun c => c.course.units).sum

/-- The two-letter semester codes of ScheduledTerm.term_id. -/
def semester_code : Term → String
  | .fall => "FA"
  | .iap => "IA"
  | .spring => "SP"
  | .summer => "SU"

/-- ScheduledTerm.term_id: the year concatenated with the semester code. -/
def ScheduledTerm.term_id (t : ScheduledTerm) : String :=
  toString t.year ++ semester_code t.semester

/-- Helper for ScheduledTerm.has_conflicts: all ordered pairs (i < j) of
courses whose meeting times collide, in the nested-loop order of the source. -/
def conflict_pairs : List ScheduledCourse → List (String × String)
  | [] => []
  | course1 :: rest =>
    ((rest.filter fun course2 => course1.has_time_conflict course2).map
      fun course2 => (course1.course.id, course2.course.id)) ++ conflict_pairs rest

/-- ScheduledTerm.has_conflicts: the colliding course-id pairs of the term. -/
def ScheduledTerm.has_conflicts (t : ScheduledTerm) : List (String × String) :=
  conflict_pairs t.courses

/-- Complete schedule (class Schedule). -/
structure Schedule where
  student_id : String
  terms : List ScheduledTerm := []
deriving DecidableEq, Repr

/-- Schedule.total_units: units summed across all terms. -/
def Schedule.total_units (s : Schedule) : Int :=
  (s.terms.map ScheduledTerm.total_units).sum

/-- Schedule.all_courses: the ids of every scheduled course, in term order. -/
def Schedule.all_courses (s : Schedule) : List String :=
  s.terms.flatMap fun term => term.courses.map fun c => c.course.id

/-! ### Generic association-list lookup (Python dict access) -/

/-- First value stored under a key, none when absent (dict.get / "in"). -/
def alist_find? {α : Type} (m : List (String × α)) (k : String) : Option α :=
  (m.find? fun p => p.1 == k).map Prod.snd

/-- The keys of an association list (dict iteration / membership). -/
def alist_keys {α : Type} (m : List (String × α)) : List String :=
  m.map Prod.fst

/-! ### Term planner (ScheduleSolver._generate_terms) -/

/-- The semester_order dictionary used by _generate_terms and
_get_prior_courses: Fall 0, IAP 1, Spring 2.  Summer is absent from the
source dictionary, so looking it up raises KeyError; the Option models that. -/
def semester_order : Term → Option Nat
  | .fall => some 0
  | .iap => some 1
  | .spring => some 2
  | .summer => none

/-- The semester-code table indexed by semester position in _generate_terms.
The index is always taken modulo 3, so the catch-all is unreachable. -/
def planner_code : Nat → String
  | 0 => "FA"
  | 1 => "IA"
  | 2 => "SP"
  | _ => ""

/-- The loop body of _generate_terms: walk the remaining horizon slots from a
given year counter and semester index, emitting a term id for every non-IAP
slot and bumping the year on wraparound to Fall. -/
def generate_terms_loop (year : Int) (semester_idx : Nat) : Nat → List String
  | 0 => []
  | fuel + 1 =>
    -- Skip IAP for now (simpler)
    let emitted : List String :=
      if semester_idx ≠ 1 then [toString (2024 + year) ++ planner_code semester_idx] else []
    let semester_idx' := (semester_idx + 1) % 3
    let year' := if semester_idx' = 0 then year + 1 else year
    emitted ++ generate_terms_loop year' semester_idx' fuel

/-- ScheduleSolver._generate_terms: the list of term ids to plan, walking
SOLVER_MAX_TERMS semester slots from the student's current position.  A
summer current semester raises KeyError in the source (none here). -/
def _generate_terms (student_profile : StudentProfile) : Option (List String) :=
  (semester_order student_profile.semester).map fun semester_idx =>
    generate_terms_loop student_profile.year semester_idx SOLVER_MAX_TERMS

/-! ### The constraint model (ScheduleSolver.solve and _add_*_constraints)

An assignment gives each decision variable course_vars[c][t] a Boolean value.
Each of the following predicates holds exactly when the assignment satisfies
every constraint the corresponding _add_*_constraints method adds to the
CP-SAT model.  The auxiliary reified indicator variables of the
specific_course branch (req_{id}_{course} with sum(taken) >= 1) are projected
out: an assignment of the course variables extends to those indicators
exactly when some allowed course known to the model is taken in some term. -/

/-- Constraints of _add_requirement_constraints for a single requirement. -/
def requirement_constraint (req : Requirement) (available_courses : List (String × Course))
    (terms : List String) (assign : String → String → Bool) : Bool :=
  match req.rule_type with
  | .specific_course =>
    -- if req.courses_allowed: (None and the empty list are both falsy)
    match req.courses_allowed with
    | none => true
    | some allowed =>
      if allowed.isEmpty then true
      else
        -- only ids present in course_vars get an indicator variable
        let known := allowed.filter fun cid => decide (cid ∈ alist_keys available_courses)
        -- if course_taken_vars:
        if known.isEmpty then true
        else known.any fun cid => terms.any fun t => assign cid t
  | .units =>
    -- if req.category and req.units_required: (empty string and 0 are falsy)
    match req.category, req.units_required with
    | some cat, some units_required =>
      if cat = "" || units_required = 0 then true
      else
        let tagged := available_courses.filter fun p => decide (cat ∈ p.2.meets_requirements)
        -- if category_units: the accumulated list is nonempty
        if tagged.isEmpty || terms.isEmpty then true
        else
          let category_units : Int :=
            (tagged.map fun p =>
              ((terms.map fun t => if assign p.1 t then p.2.units else 0).sum)).sum
          decide (category_units ≥ units_required)
    | _, _ => true
  -- category and elective rules add no constraint
  | _ => true

/-- All constraints of _add_requirement_constraints. -/
def requirement_constraints (requirements : List Requirement)
    (available_courses : List (String × Course)) (terms : List String)
    (assign : String → String → Bool) : Bool :=
  requirements.all fun req => requirement_constraint req available_courses terms assign

/-- Constraints of _add_prerequisite_constraints.  Every key of
available_courses has a variable row, so the "course_id not in course_vars"
guard of the source never fires.  For a course taken in the term at index i,
the sum of the prerequisite's variables over earlier terms must be at least
one; for i = 0 that list is empty and the source adds no constraint. -/
def prerequisite_constraints (available_courses : List (String × Course))
    (terms : List String) (completed_courses : List String)
    (assign : String → String → Bool) : Bool :=
  available_courses.all fun p =>
    p.2.prerequisites.all fun prereq =>
      if decide (prereq ∈ completed_courses) then true  -- Already completed
      else if !decide (prereq ∈ alist_keys available_courses) then
        -- Prerequisite not in schedule - can't take course
        terms.all fun t => !assign p.1 t
      else
        terms.enum.all fun it =>
          let prereq_taken_before := terms.take it.1
          if prereq_taken_before.isEmpty then true
          else !assign p.1 it.2 || prereq_taken_before.any fun tj => assign prereq tj

/-- Constraints of _add_offering_constraints: a course not listed among a
term's offerings cannot be taken in that term — but only for terms that are
keys of the offerings dictionary. -/
def offering_constraints (available_courses : List (String × Course))
    (course_offerings : List (String × List String)) (terms : List String)
    (assign : String → String → Bool) : Bool :=
  (alist_keys available_courses).all fun course_id =>
    terms.all fun term_id =>
      match alist_find? course_offerings term_id with
      | some offered => if decide (course_id ∈ offered) then true else !assign course_id term_id
      | none => true

/-- The per-term unit sum over the decision variables. -/
def term_units_sum (available_courses : List (String × Course)) (term_id : String)
    (assign : String → String → Bool) : Int :=
  (available_courses.map fun p => if assign p.1 term_id then p.2.units else 0).sum

/-- The max_units bound of _add_unit_constraints: the max_units_per_term
preference when present, the configured default otherwise. -/
def max_units (student_profile : StudentProfile) : Int :=
  (alist_find? student_profile.preferences "max_units_per_term").getD
    DEFAULT_MAX_UNITS_PER_TERM

/-- Constraints of _add_unit_constraints: per-term unit totals bounded above
by max_units and below by 12 — but only when the term_units list is nonempty,
i.e. when there is at least one available course. -/
def unit_constraints (available_courses : List (String × Course)) (terms : List String)
    (max_units_bound : Int) (assign : String → String → Bool) : Bool :=
  terms.all fun term_id =>
    if available_courses.isEmpty then true
    else
      decide (term_units_sum available_courses term_id assign ≤ max_units_bound) &&
      -- Also enforce minimum to avoid empty terms
      decide (term_units_sum available_courses term_id assign ≥ 12)

/-- Satisfaction of the whole constraint model ScheduleSolver.solve builds:
the conjunction of the four constraint groups.  The objective added by
_add_objective does not constrain feasibility. -/
def model_sat (student_profile : StudentProfile) (requirements : List Requirement)
    (available_courses : List (String × Course))
    (course_offerings : List (String × List String)) (terms : List String)
    (assign : String → String → Bool) : Bool :=
  requirement_constraints requirements available_courses terms assign &&
  prerequisite_constraints available_courses terms student_profile.completed_courses assign &&
  offering_constraints available_courses course_offerings terms assign &&
  unit_constraints available_courses terms (max_units student_profile) assign

/-! ### Schedule extraction (ScheduleSolver._extract_schedule) -/

/-- The semester-decoding table of _extract_schedule; an unknown code raises
KeyError (none here). -/
def extract_semester : String → Option Term
  | "FA" => some Term.fall
  | "SP" => some Term.spring
  | "IA" => some Term.iap
  | _ => none

/-- The per-term loop of _extract_schedule: parse each term id, collect the
courses whose variable is 1, and keep the term only when nonempty.  A term id
whose first four characters are not an integer, or whose tail is not a known
semester code, raises in the source (none here). -/
def extract_terms (available_courses : List (String × Course))
    (assign : String → String → Bool) : List String → Option (List ScheduledTerm)
  | [] => some []
  | term_id :: rest => do
    let year ← str_to_int? (term_id.take 4)
    let semester ← extract_semester (term_id.drop 4)
    let courses_in_term : List ScheduledCourse :=
      available_courses.filterMap fun p =>
        if assign p.1 term_id then
          some { course := p.2, term := term_id, year := year, semester := semester,
                 meeting_times := [] }
        else none
    let rest' ← extract_terms available_courses assign rest
    pure (if courses_in_term.isEmpty then rest'
          else { year := year, semester := semester, courses := courses_in_term } :: rest')

/-- ScheduleSolver._extract_schedule. -/
def _extract_schedule (available_courses : List (String × Course)) (terms : List String)
    (student_profile : StudentProfile) (assign : String → String → Bool) :
    Option Schedule :=
  (extract_terms available_courses assign terms).map fun scheduled_terms =>
    { student_id := student_profile.id, terms := scheduled_terms }

/-! ### Scoring (ScheduleSolver._calculate_score)

Python floats are modelled as exact rationals; every arithmetic step of the
source formula (mean, variance, the 1 / (1 + variance / 100) balance score,
the weight product and the final min with 1) is reproduced over the
rationals. -/

/-- preferences.get(key, default) on the float-valued preference weights. -/
def pref_get (preferences : List (String × ℚ)) (key : String) (default : ℚ) : ℚ :=
  (alist_find? preferences key).getD default

/-- ScheduleSolver._calculate_score. -/
def _calculate_score (schedule : Schedule) (preferences : List (String × ℚ)) : ℚ :=
  let score : ℚ := 0
  -- Balance: Reward consistent term loads
  let term_units : List ℚ := schedule.terms.map fun term => (term.total_units : ℚ)
  let score :=
    if term_units.isEmpty then score
    else
      let avg_units := term_units.sum / (term_units.length : ℚ)
      let variance := ((term_units.map fun u => (u - avg_units) ^ 2).sum) / (term_units.length : ℚ)
      let balance_score := 1 / (1 + variance / 100)  -- Normalize
      score + balance_score * pref_get preferences "balance_workload" (1 / 2)
  min 1 score  -- Normalize to 0-1

/-! ### Validation (ScheduleSolver.validate_schedule and helpers) -/

/-- The messages validate_schedule accumulates.  The source builds f-strings;
here each append site becomes one constructor carrying the data interpolated
into the message (a term is identified by the year and semester that its
term_id renders).  The offeringViolation constructor exists so that the
absence of offering errors is statable: the source validator has no offering
check and never produces such a message.  Unit-bound messages are produced,
but only ever into the warnings list. -/
inductive VMessage where
  | requirementUnsat (description : String)
  | prereqMissing (prereq : String) (course_id : String) (year : Int) (semester : Term)
  | timeConflict (year : Int) (semester : Term)
  | unitsAbove (year : Int) (semester : Term)
  | unitsBelow (year : Int) (semester : Term)
  | offeringViolation (course_id : String) (term_id : String)
  | validationError
deriving DecidableEq, Repr

/-- Results of schedule validation (class ScheduleValidation).
requirements_satisfied is a dict req id -> Bool in the source. -/
structure ScheduleValidation where
  is_valid : Bool
  requirements_satisfied : List (String × Bool)
  missing_requirements : List String := []
  warnings : List VMessage := []
  errors : List VMessage := []
  conflicts : List ((Int × Term) × (String × String)) := []
deriving DecidableEq, Repr

/-- ScheduleSolver._check_requirement: whether scheduled course ids satisfy
one requirement.  Mirrors the source's truthiness guards: a None or empty
courses_allowed falls through to False, an empty-string category falls
through to False, and a None units_required counts as 0. -/
def _check_requirement (requirement : Requirement) (scheduled_courses : List String)
    (available_courses : List (String × Course)) : Bool :=
  match requirement.rule_type with
  | .specific_course =>
    match requirement.courses_allowed with
    | some allowed => allowed.any fun c => decide (c ∈ scheduled_courses)
    | none => false
  | .units =>
    match requirement.category with
    | some category =>
      if category = "" then false
      else
        let total_units : Int :=
          (scheduled_courses.filterMap fun cid =>
            match alist_find? available_courses cid with
            | some course =>
              if decide (category ∈ course.meets_requirements) then some course.units else none
            | none => none).sum
        decide (total_units ≥ (requirement.units_required.getD 0))
    | none => false
  | _ => false

/-- The strict lexicographic order on (year, semester-position) pairs used by
_get_prior_courses; Python compares the tuples lexicographically. -/
def term_before (year1 : Int) (order1 : Nat) (year2 : Int) (order2 : Nat) : Bool :=
  decide (year1 < year2) || (decide (year1 = year2) && decide (order1 < order2))

/-- The semester position used by _get_prior_courses.  Summer is absent from
the source's semester_order dictionary and raises KeyError; validate_schedule
catches that exception, and the schedule_validation_raises guard below routes
such schedules to the fallback result, so the default value 3 is unreachable
from validate_schedule. -/
def semester_order_pos (s : Term) : Nat :=
  (semester_order s).getD 3

/-- ScheduleSolver._get_prior_courses: ids of all courses in terms strictly
before the target (year, semester). -/
def _get_prior_courses (schedule : Schedule) (target_year : Int) (target_semester : Term) :
    List String :=
  schedule.terms.flatMap fun term =>
    if term_before term.year (semester_order_pos term.semester)
        target_year (semester_order_pos target_semester) then
      term.courses.map fun c => c.course.id
    else []

/-- Whether validate_schedule's body raises: _get_prior_courses is entered
only when some term has a scheduled course, and it looks up semester_order
for the target term and then for every term of the schedule, so it raises
KeyError exactly when some course is scheduled and some term is a summer
term.  The except branch of the source catches this. -/
def schedule_validation_raises (schedule : Schedule) : Bool :=
  (schedule.terms.any fun term => !term.courses.isEmpty) &&
  (schedule.terms.any fun term => term.semester == Term.summer)

/-- The requirement errors of validate_schedule. -/
def validation_requirement_errors (requirements : List Requirement)
    (scheduled_courses : List String) (available_courses : List (String × Course)) :
    List VMessage :=
  (requirements.filter fun req =>
    !_check_requirement req scheduled_courses available_courses).map fun req =>
      VMessage.requirementUnsat req.description

/-- The prerequisite errors of validate_schedule: one per (term, course,
prerequisite) with the prerequisite absent from the strictly earlier terms. -/
def validation_prereq_errors (schedule : Schedule) : List VMessage :=
  schedule.terms.flatMap fun term =>
    term.courses.flatMap fun scheduled_course =>
      (scheduled_course.course.prerequisites.filter fun prereq =>
        !decide (prereq ∈ _get_prior_courses schedule term.year term.semester)).map
          fun prereq =>
            VMessage.prereqMissing prereq scheduled_course.course.id term.year term.semester

/-- The time-conflict errors of validate_schedule: one per term with at least
one colliding pair. -/
def validation_conflict_errors (schedule : Schedule) : List VMessage :=
  (schedule.terms.filter fun term => !term.has_conflicts.isEmpty).map fun term =>
    VMessage.timeConflict term.year term.semester

/-- The unit-load warnings of validate_schedule: above the configured max is
a warning, below the configured min is a warning, never an error. -/
def validation_unit_warnings (schedule : Schedule) : List VMessage :=
  schedule.terms.flatMap fun term =>
    if term.total_units > DEFAULT_MAX_UNITS_PER_TERM then
      [VMessage.unitsAbove term.year term.semester]
    else if term.total_units < DEFAULT_MIN_UNITS_PER_TERM then
      [VMessage.unitsBelow term.year term.semester]
    else []

/-- ScheduleSolver.validate_schedule.  The fallback branch models the
source's except handler (triggered exactly by the KeyError condition above);
otherwise the error list is the requirement errors, then the prerequisite
errors, then the per-term conflict errors, with unit-bound findings appended
to warnings only, and is_valid true exactly when the error list is empty.
The student's completed_courses are not an input: the validator never
consults them. -/
def validate_schedule (schedule : Schedule) (requirements : List Requirement)
    (available_courses : List (String × Course)) : ScheduleValidation :=
  if schedule_validation_raises schedule then
    { is_valid := false, requirements_satisfied := [], missing_requirements := [],
      warnings := [], errors := [VMessage.validationError], conflicts := [] }
  else
    let scheduled_courses := schedule.all_courses
    let errors :=
      validation_requirement_errors requirements scheduled_courses available_courses ++
      validation_prereq_errors schedule ++
      validation_conflict_errors schedule
    { is_valid := errors.isEmpty
      requirements_satisfied :=
        requirements.map fun req =>
          (req.id, _check_requirement req scheduled_courses available_courses)
      missing_requirements :=
        (requirements.filter fun req =>
          !_check_requirement req scheduled_courses available_courses).map fun req => req.id
      warnings := validation_unit_warnings schedule
      errors := errors
      conflicts :=
        schedule.terms.flatMap fun term =>
          term.has_conflicts.map fun pair => ((term.year, term.semester), pair) }

/-! ### Concrete inputs used by the witnesses and counterexamples below -/

/-- A 12-unit course with no prerequisites. -/
def exCourseA : Course := { id := "A", units := 12 }

/-- A 36-unit course with no prerequisites. -/
def exCourseA36 : Course := { id := "A", units := 36 }

/-- A 12-unit course that is the prerequisite of exCourseB. -/
def exCourseP : Course := { id := "P", units := 12 }

/-- A 12-unit course requiring exCourseP. -/
def exCourseB : Course := { id := "B", units := 12, prerequisites := ["P"] }

/-- A first-year fall student with no history and no preference overrides. -/
def exProfile : StudentProfile := { id := "s", major := "6-3", year := 1, semester := .fall }

/-- The assignment that takes every course in every term. -/
def assignAll : String → String → Bool := fun _ _ => true

/-- The assignment that takes the course with id A in every term and nothing
else. -/
def assignOnlyA : String → String → Bool := fun course_id _ => course_id == "A"

/-- The course map holding exCourseP and exCourseB. -/
def exCoursesPB : List (String × Course) := [("P", exCourseP), ("B", exCourseB)]

/-- Offerings for a single fall term carrying both courses of exCoursesPB. -/
def exOfferingsPB : List (String × List String) := [("2025FA", ["P", "B"])]

/-- The schedule _extract_schedule produces from assignAll on exCoursesPB
over the single term 2025FA. -/
def exSchedPB : Schedule :=
  { student_id := "s"
    terms := [{ year := 2025, semester := .fall
                courses := [{ course := exCourseP, term := "2025FA", year := 2025, semester := .fall },
                            { course := exCourseB, term := "2025FA", year := 2025, semester := .fall }] }] }

/-- A schedule holding the single 36-unit course exCourseA36 in fall 2025. -/
def exSchedA36 : Schedule :=
  { student_id := "s"
    terms := [{ year := 2025, semester := .fall
                courses := [{ course := exCourseA36, term := "2025FA", year := 2025, semester := .fall }] }] }

/-- A specific-course requirement allowing the unknown id X or the id A. -/
def exReqXA : Requirement :=
  { id := "r1", major := "6-3", description := "take X or A", rule_type := .specific_course
    courses_allowed := some ["X", "A"] }

/-- A category-rule requirement (no enforced semantics in the source). -/
def exReqCat : Requirement :=
  { id := "rc", major := "6-3", description := "category rule", rule_type := .category }

/-- A schedule whose single summer term carries a course: the validator's
prerequisite pass raises KeyError on the summer semester-order lookup and
the except handler answers with the fallback result. -/
def exSchedSummer : Schedule :=
  { student_id := "s"
    terms := [{ year := 2025, semester := .summer
                courses := [{ course := exCourseA36, term := "2025SU", year := 2025,
                              semester := .summer }] }] }

/-- The schedule _extract_schedule produces from assignAll on the single
course exCourseA over the two terms 2025FA and 2025SP. -/
def exSchedATwice : Schedule :=
  { student_id := "s"
    terms := [{ year := 2025, semester := .fall
                courses := [{ course := exCourseA, term := "2025FA", year := 2025, semester := .fall }] },
              { year := 2025, semester := .spring
                courses := [{ course := exCourseA, term := "2025SP", year := 2025, semester := .spring }] }] }

/-! ### Theorems -/

/-- Day-set intersection tested by any-membership is symmetric. -/
theorem days_overlap_symm (l1 l2 : List DayOfWeek) :
    (l1.any fun d => decide (d ∈ l2)) = (l2.any fun d => decide (d ∈ l1)) := by
  rw [Bool.eq_iff_iff]
  simp only [List.any_eq_true, decide_eq_true_eq]
  exact ⟨fun ⟨d, h1, h2⟩ => ⟨d, h2, h1⟩, fun ⟨d, h1, h2⟩ => ⟨d, h2, h1⟩⟩

/-- C6: MeetingTime.conflicts_with is symmetric; it is false whenever the two
day sets are disjoint; for meetings sharing a day it is true exactly when
start1 < end2 and start2 < end1 on the parsed minute values (half-open
overlap); and on the spec's concrete examples, [9:00,10:00) conflicts with
[9:30,10:30) while [9:00,10:00) does not conflict with [10:00,11:00). -/
theorem conflicts_with_spec :
    (∀ m1 m2 : MeetingTime, m1.conflicts_with m2 = m2.conflicts_with m1) ∧
    (∀ m1 m2 : MeetingTime, (∀ d ∈ m1.days, d ∉ m2.days) → m1.conflicts_with m2 = false) ∧
    (∀ m1 m2 : MeetingTime, ∀ d ∈ m1.days, d ∈ m2.days →
      (m1.conflicts_with m2 = true ↔
        _parse_time m1.start_time < _parse_time m2.end_time ∧
        _parse_time m2.start_time < _parse_time m1.end_time)) ∧
    MeetingTime.conflicts_with ⟨[.monday], "9:00", "10:00"⟩ ⟨[.monday], "9:30", "10:30"⟩ = true ∧
    MeetingTime.conflicts_with ⟨[.monday], "9:00", "10:00"⟩ ⟨[.monday], "10:00", "11:00"⟩ = false := by
  refine ⟨?_, ?_, ?_, by decide, by decide⟩
  · intro m1 m2
    unfold MeetingTime.conflicts_with
    rw [days_overlap_symm]
    cases h : m2.days.any fun d => decide (d ∈ m1.days) <;>
      simp [h, Bool.and_comm]
  · intro m1 m2 hdisj
    unfold MeetingTime.conflicts_with
    have h : (m1.days.any fun d => decide (d ∈ m2.days)) = false := by
      simp only [List.any_eq_false, decide_eq_true_eq]
      exact hdisj
    simp [h]
  · intro m1 m2 d hd1 hd2
    unfold MeetingTime.conflicts_with
    have h : (m1.days.any fun d => decide (d ∈ m2.days)) = true := by
      simp only [List.any_eq_true, decide_eq_true_eq]
      exact ⟨d, hd1, hd2⟩
    simp [h]

/-- Closed instance of the disjoint-days conjunct of conflicts_with_spec. -/
theorem conflicts_with_spec_witness :
    MeetingTime.conflicts_with ⟨[.monday], "9:00", "10:00"⟩ ⟨[.tuesday], "9:00", "10:00"⟩ = false :=
  conflicts_with_spec.2.1 ⟨[.monday], "9:00", "10:00"⟩ ⟨[.tuesday], "9:00", "10:00"⟩ (by decide)

/-- C5: no single-assignment constraint exists — a concrete input with one
12-unit course, two planned terms and the course offered in both admits the
satisfying assignment taking the course in both terms, and the extracted
schedule places the same course in two distinct terms. -/
theorem single_assignment_not_enforced :
    model_sat exProfile [] [("A", exCourseA)]
        [("2025FA", ["A"]), ("2025SP", ["A"])] ["2025FA", "2025SP"] assignAll = true ∧
    assignAll "A" "2025FA" = true ∧ assignAll "A" "2025SP" = true ∧ "2025FA" ≠ "2025SP" ∧
    _extract_schedule [("A", exCourseA)] ["2025FA", "2025SP"] exProfile assignAll =
      some exSchedATwice ∧
    exSchedATwice.all_courses = ["A", "A"] :=
  ⟨by decide, by decide, by decide, by decide, by decide, by decide⟩

/-- For category and elective rules _check_requirement falls through to
False. -/
theorem check_requirement_false_of_rule (req : Requirement)
    (scheduled_courses : List String) (available_courses : List (String × Course))
    (h : req.rule_type = RequirementType.category ∨ req.rule_type = RequirementType.elective) :
    _check_requirement req scheduled_courses available_courses = false := by
  rcases h with h | h <;> simp [_check_requirement, h]

/-- When the exception fallback is not triggered, a requirement that
_check_requirement rejects is listed among missing_requirements, generates a
requirement error and invalidates the schedule. -/
theorem validate_flags_unsatisfied_requirement (schedule : Schedule)
    (requirements : List Requirement) (available_courses : List (String × Course))
    (req : Requirement) (hreq : req ∈ requirements)
    (hfalse : _check_requirement req schedule.all_courses available_courses = false)
    (hraise : schedule_validation_raises schedule = false) :
    req.id ∈ (validate_schedule schedule requirements available_courses).missing_requirements ∧
    VMessage.requirementUnsat req.description ∈
      (validate_schedule schedule requirements available_courses).errors ∧
    (validate_schedule schedule requirements available_courses).is_valid = false := by
  have hmem : VMessage.requirementUnsat req.description ∈
      (validate_schedule schedule requirements available_courses).errors := by
    simp only [validate_schedule, hraise, Bool.false_eq_true, if_false]
    simp only [List.mem_append, validation_requirement_errors, List.mem_map,
      List.mem_filter]
    exact Or.inl (Or.inl ⟨req, ⟨hreq, by simp [hfalse]⟩, rfl⟩)
  refine ⟨?_, hmem, ?_⟩
  · simp only [validate_schedule, hraise, Bool.false_eq_true, if_false, List.mem_map,
      List.mem_filter]
    exact ⟨req, ⟨hreq, by simp [hfalse]⟩, rfl⟩
  · have hne : (validate_schedule schedule requirements available_courses).errors ≠ [] :=
      List.ne_nil_of_mem hmem
    simp only [validate_schedule, hraise, Bool.false_eq_true, if_false] at hne ⊢
    simpa [List.isEmpty_iff] using hne

/-- C10 (amended): a requirement whose rule_type is category or elective is
never satisfied by _check_requirement, and the constraint model builder adds
no constraint at all for these rule types; validate_schedule reports
is_valid = false for every schedule validated against such a requirement,
and lists it among missing_requirements with an error for it except when the
schedule is routed to the source's exception fallback — a scheduled course
together with a summer term — where the except handler discards the
per-requirement results and returns empty missing_requirements with a single
validation-error entry (see the counterexample). -/
theorem category_elective_requirements_spec :
    (∀ (req : Requirement) (scheduled_courses : List String)
        (available_courses : List (String × Course)),
      (req.rule_type = RequirementType.category ∨ req.rule_type = RequirementType.elective) →
      _check_requirement req scheduled_courses available_courses = false) ∧
    (∀ (req : Requirement) (available_courses : List (String × Course))
        (terms : List String) (assign : String → String → Bool),
      (req.rule_type = RequirementType.category ∨ req.rule_type = RequirementType.elective) →
      requirement_constraint req available_courses terms assign = true) ∧
    (∀ (schedule : Schedule) (requirements : List Requirement)
        (available_courses : List (String × Course)) (req : Requirement),
      req ∈ requirements →
      (req.rule_type = RequirementType.category ∨ req.rule_type = RequirementType.elective) →
      schedule_validation_raises schedule = false →
      req.id ∈ (validate_schedule schedule requirements available_courses).missing_requirements ∧
      VMessage.requirementUnsat req.description ∈
        (validate_schedule schedule requirements available_courses).errors) ∧
    (∀ (schedule : Schedule) (requirements : List Requirement)
        (available_courses : List (String × Course)) (req : Requirement),
      req ∈ requirements →
      (req.rule_type = RequirementType.category ∨ req.rule_type = RequirementType.elective) →
      (validate_schedule schedule requirements available_courses).is_valid = false) := by
  refine ⟨check_requirement_false_of_rule, ?_, ?_, ?_⟩
  · intro req available_courses terms assign h
    rcases h with h | h <;> simp [requirement_constraint, h]
  · intro schedule requirements available_courses req hreq hrule hraise
    have h := validate_flags_unsatisfied_requirement schedule requirements
      available_courses req hreq
      (check_requirement_false_of_rule req schedule.all_courses available_courses hrule)
      hraise
    exact ⟨h.1, h.2.1⟩
  · intro schedule requirements available_courses req hreq hrule
    by_cases hraise : schedule_validation_raises schedule = true
    · simp [validate_schedule, hraise]
    · rw [Bool.not_eq_true] at hraise
      exact (validate_flags_unsatisfied_requirement schedule requirements
        available_courses req hreq
        (check_requirement_false_of_rule req schedule.all_courses available_courses hrule)
        hraise).2.2

/-- Closed instance of category_elective_requirements_spec: with the concrete
category requirement exReqCat, the model is unconstrained, the ordinary
schedule exSchedA36 validates invalid with the requirement missing, and even
the fallback-routed summer schedule validates invalid. -/
theorem category_elective_requirements_spec_witness :
    _check_requirement exReqCat exSchedA36.all_courses [("A", exCourseA36)] = false ∧
    requirement_constraint exReqCat [("A", exCourseA36)] ["2025FA"] assignAll = true ∧
    "rc" ∈ (validate_schedule exSchedA36 [exReqCat] [("A", exCourseA36)]).missing_requirements ∧
    (validate_schedule exSchedA36 [exReqCat] [("A", exCourseA36)]).is_valid = false ∧
    (validate_schedule exSchedSummer [exReqCat] [("A", exCourseA36)]).is_valid = false :=
  ⟨category_elective_requirements_spec.1 exReqCat exSchedA36.all_courses
      [("A", exCourseA36)] (Or.inl rfl),
   category_elective_requirements_spec.2.1 exReqCat [("A", exCourseA36)] ["2025FA"]
      assignAll (Or.inl rfl),
   (category_elective_requirements_spec.2.2.1 exSchedA36 [exReqCat] [("A", exCourseA36)]
      exReqCat (by decide) (Or.inl rfl) (by decide)).1,
   category_elective_requirements_spec.2.2.2 exSchedA36 [exReqCat] [("A", exCourseA36)]
      exReqCat (by decide) (Or.inl rfl),
   category_elective_requirements_spec.2.2.2 exSchedSummer [exReqCat] [("A", exCourseA36)]
      exReqCat (by decide) (Or.inl rfl)⟩

/-- C10 counterexample: the schedule exSchedSummer (a scheduled course in a
summer term) triggers the validator's KeyError fallback, which returns empty
missing_requirements and no per-requirement error, so the category
requirement exReqCat is not placed in missing_requirements and no error is
appended for it — the schedule still comes back is_valid = false, but only
through the fallback's validation-error entry. -/
theorem category_elective_summer_fallback_counterexample :
    exReqCat.rule_type = RequirementType.category ∧
    schedule_validation_raises exSchedSummer = true ∧
    (validate_schedule exSchedSummer [exReqCat] [("A", exCourseA36)]).missing_requirements
      = [] ∧
    ¬(VMessage.requirementUnsat exReqCat.description ∈
        (validate_schedule exSchedSummer [exReqCat] [("A", exCourseA36)]).errors) ∧
    (validate_schedule exSchedSummer [exReqCat] [("A", exCourseA36)]).errors =
      [VMessage.validationError] ∧
    (validate_schedule exSchedSummer [exReqCat] [("A", exCourseA36)]).is_valid = false :=
  ⟨by decide, by decide, by decide, by decide, by decide, by decide⟩

/-- The planner walk from a fall start over the default horizon, with the
year counter symbolic. -/
theorem generate_terms_loop_fall (y : Int) :
    generate_terms_loop y 0 8 =
      [toString (2024 + y) ++ "FA", toString (2024 + y) ++ "SP",
       toString (2024 + (y + 1)) ++ "FA", toString (2024 + (y + 1)) ++ "SP",
       toString (2024 + (y + 1 + 1)) ++ "FA"] := rfl

/-- The planner walk from an IAP start over the default horizon. -/
theorem generate_terms_loop_iap (y : Int) :
    generate_terms_loop y 1 8 =
      [toString (2024 + y) ++ "SP", toString (2024 + (y + 1)) ++ "FA",
       toString (2024 + (y + 1)) ++ "SP", toString (2024 + (y + 1 + 1)) ++ "FA",
       toString (2024 + (y + 1 + 1)) ++ "SP"] := rfl

/-- The planner walk from a spring start over the default horizon. -/
theorem generate_terms_loop_spring (y : Int) :
    generate_terms_loop y 2 8 =
      [toString (2024 + y) ++ "SP", toString (2024 + (y + 1)) ++ "FA",
       toString (2024 + (y + 1)) ++ "SP", toString (2024 + (y + 1 + 1)) ++ "FA",
       toString (2024 + (y + 1 + 1)) ++ "SP", toString (2024 + (y + 1 + 1 + 1)) ++ "FA"] := rfl

/-- C7: for every non-summer starting position, _generate_terms consumes the
eight-slot horizon, emits term ids only for fall and spring slots, and the
produced list is strictly shorter than the horizon — five or six terms with
the default horizon of eight (summer raises KeyError in the source and is
excluded).  Walking the slots cyclically with the wraparound year increment
is the structure of generate_terms_loop itself. -/
theorem generate_terms_spec (student_profile : StudentProfile)
    (h : student_profile.semester ≠ Term.summer) :
    ∃ terms, _generate_terms student_profile = some terms ∧
      terms.length < SOLVER_MAX_TERMS ∧
      (terms.length = 5 ∨ terms.length = 6) ∧
      ∀ t ∈ terms, ∃ y : Int, t = toString y ++ "FA" ∨ t = toString y ++ "SP" := by
  cases hs : student_profile.semester with
  | summer => exact absurd hs h
  | fall =>
    refine ⟨generate_terms_loop student_profile.year 0 8, ?_, ?_, ?_, ?_⟩
    · simp [_generate_terms, hs, semester_order, SOLVER_MAX_TERMS]
    · rw [generate_terms_loop_fall]; norm_num [SOLVER_MAX_TERMS]
    · rw [generate_terms_loop_fall]; left; rfl
    · rw [generate_terms_loop_fall]
      intro t ht
      simp only [List.mem_cons, List.not_mem_nil, or_false] at ht
      rcases ht with rfl | rfl | rfl | rfl | rfl
      · exact ⟨_, Or.inl rfl⟩
      · exact ⟨_, Or.inr rfl⟩
      · exact ⟨_, Or.inl rfl⟩
      · exact ⟨_, Or.inr rfl⟩
      · exact ⟨_, Or.inl rfl⟩
  | iap =>
    refine ⟨generate_terms_loop student_profile.year 1 8, ?_, ?_, ?_, ?_⟩
    · simp [_generate_terms, hs, semester_order, SOLVER_MAX_TERMS]
    · rw [generate_terms_loop_iap]; norm_num [SOLVER_MAX_TERMS]
    · rw [generate_terms_loop_iap]; left; rfl
    · rw [generate_terms_loop_iap]
      intro t ht
      simp only [List.mem_cons, List.not_mem_nil, or_false] at ht
      rcases ht with rfl | rfl | rfl | rfl | rfl
      · exact ⟨_, Or.inr rfl⟩
      · exact ⟨_, Or.inl rfl⟩
      · exact ⟨_, Or.inr rfl⟩
      · exact ⟨_, Or.inl rfl⟩
      · exact ⟨_, Or.inr rfl⟩
  | spring =>
    refine ⟨generate_terms_loop student_profile.year 2 8, ?_, ?_, ?_, ?_⟩
    · simp [_generate_terms, hs, semester_order, SOLVER_MAX_TERMS]
    · rw [generate_terms_loop_spring]; norm_num [SOLVER_MAX_TERMS]
    · rw [generate_terms_loop_spring]; right; rfl
    · rw [generate_terms_loop_spring]
      intro t ht
      simp only [List.mem_cons, List.not_mem_nil, or_false] at ht
      rcases ht with rfl | rfl | rfl | rfl | rfl | rfl
      · exact ⟨_, Or.inr rfl⟩
      · exact ⟨_, Or.inl rfl⟩
      · exact ⟨_, Or.inr rfl⟩
      · exact ⟨_, Or.inl rfl⟩
      · exact ⟨_, Or.inr rfl⟩
      · exact ⟨_, Or.inl rfl⟩

/-- Closed instance of generate_terms_spec at the concrete fall profile. -/
theorem generate_terms_spec_witness :
    ∃ terms, _generate_terms exProfile = some terms ∧
      terms.length < SOLVER_MAX_TERMS ∧
      (terms.length = 5 ∨ terms.length = 6) ∧
      ∀ t ∈ terms, ∃ y : Int, t = toString y ++ "FA" ∨ t = toString y ++ "SP" :=
  generate_terms_spec exProfile (by decide)

/-- C4: validate_schedule records a prerequisite error for scheduled course c
and prerequisite p exactly when p is not among the course ids of the terms
strictly earlier than c's term under the year-then-semester order of
_get_prior_courses.  The check never consults the student's completed
courses: validate_schedule does not even receive the student profile. -/
theorem validator_prereq_exactness (schedule : Schedule) (requirements : List Requirement)
    (available_courses : List (String × Course))
    (hns : ∀ t ∈ schedule.terms, t.semester ≠ Term.summer)
    (term : ScheduledTerm) (hterm : term ∈ schedule.terms)
    (sc : ScheduledCourse) (hsc : sc ∈ term.courses)
    (prereq : String) (hp : prereq ∈ sc.course.prerequisites) :
    (VMessage.prereqMissing prereq sc.course.id term.year term.semester ∈
        (validate_schedule schedule requirements available_courses).errors) ↔
      prereq ∉ _get_prior_courses schedule term.year term.semester := by
  have h2 : (schedule.terms.any fun t => t.semester == Term.summer) = false := by
    simp only [List.any_eq_false, beq_iff_eq]
    exact fun t ht => hns t ht
  have hraise : schedule_validation_raises schedule = false := by
    simp [schedule_validation_raises, h2]
  simp only [validate_schedule, hraise, Bool.false_eq_true, if_false, List.mem_append]
  constructor
  · rintro ((hmem | hmem) | hmem)
    · exfalso
      simp [validation_requirement_errors] at hmem
    · simp only [validation_prereq_errors, List.mem_flatMap, List.mem_map,
        List.mem_filter, Bool.not_eq_eq_eq_not, Bool.not_true, decide_eq_false_iff_not]
        at hmem
      obtain ⟨term', hterm', sc', hsc', prereq', ⟨hp', hnot⟩, heq⟩ := hmem
      obtain ⟨hpe, _, hye, hse⟩ := VMessage.prereqMissing.inj heq
      subst hpe
      rw [hye, hse] at hnot
      exact hnot
    · exfalso
      simp [validation_conflict_errors] at hmem
  · intro hnot
    refine Or.inl (Or.inr ?_)
    simp only [validation_prereq_errors, List.mem_flatMap, List.mem_map, List.mem_filter,
      Bool.not_eq_eq_eq_not, Bool.not_true, decide_eq_false_iff_not]
    exact ⟨term, hterm, sc, hsc, prereq, ⟨hp, hnot⟩, rfl⟩

/-- Closed instance of validator_prereq_exactness: on the concrete schedule
exSchedPB, the prerequisite P of B in the single fall term is missing from
the (empty) prior courses exactly as the error list records. -/
theorem validator_prereq_exactness_witness :
    VMessage.prereqMissing "P" "B" 2025 Term.fall ∈
      (validate_schedule exSchedPB [] exCoursesPB).errors :=
  (validator_prereq_exactness exSchedPB [] exCoursesPB (by decide)
    { year := 2025, semester := .fall
      courses := [{ course := exCourseP, term := "2025FA", year := 2025, semester := .fall },
                  { course := exCourseB, term := "2025FA", year := 2025, semester := .fall }] }
    (by decide)
    { course := exCourseB, term := "2025FA", year := 2025, semester := .fall }
    (by decide) "P" (by decide)).mpr (by decide)

/-- Every error validate_schedule emits is a requirement error, a
prerequisite error, a per-term time-conflict error, or the exception
fallback: the validator has no offering check, and unit-bound findings go to
warnings. -/
theorem validate_errors_cases (schedule : Schedule) (requirements : List Requirement)
    (available_courses : List (String × Course)) :
    ∀ e ∈ (validate_schedule schedule requirements available_courses).errors,
      (∃ d, e = VMessage.requirementUnsat d) ∨
      (∃ p c y s, e = VMessage.prereqMissing p c y s) ∨
      (∃ y s, e = VMessage.timeConflict y s) ∨ e = VMessage.validationError := by
  intro e he
  by_cases hraise : schedule_validation_raises schedule = true
  · simp only [validate_schedule, hraise, if_true, List.mem_singleton] at he
    subst he
    exact Or.inr (Or.inr (Or.inr rfl))
  · rw [Bool.not_eq_true] at hraise
    simp only [validate_schedule, hraise, Bool.false_eq_true, if_false, List.mem_append] at he
    rcases he with (he | he) | he
    · simp only [validation_requirement_errors, List.mem_map] at he
      obtain ⟨req, _, rfl⟩ := he
      exact Or.inl ⟨req.description, rfl⟩
    · simp only [validation_prereq_errors, List.mem_flatMap, List.mem_map] at he
      obtain ⟨t, _, c, _, p, _, rfl⟩ := he
      exact Or.inr (Or.inl ⟨_, _, _, _, rfl⟩)
    · simp only [validation_conflict_errors, List.mem_map, List.mem_filter] at he
      obtain ⟨t, _, rfl⟩ := he
      exact Or.inr (Or.inr (Or.inl ⟨_, _, rfl⟩))

/-- C1 (amended): for every input on which the constraint model is satisfied
and a schedule is extracted, validate_schedule reports zero offering errors
and zero unit-bound errors (it emits no error of either kind for any
schedule: offerings are not re-checked and unit bounds surface as warnings);
it may, however, report prerequisite errors, so the round trip as originally
stated fails (see the counterexample). -/
theorem round_trip_no_offering_or_unit_errors
    (student_profile : StudentProfile) (requirements : List Requirement)
    (available_courses : List (String × Course))
    (course_offerings : List (String × List String)) (terms : List String)
    (assign : String → String → Bool) (schedule : Schedule)
    (_hsat : model_sat student_profile requirements available_courses course_offerings
      terms assign = true)
    (_hext : _extract_schedule available_courses terms student_profile assign = some schedule) :
    ∀ e ∈ (validate_schedule schedule requirements available_courses).errors,
      (∀ cid tid, e ≠ VMessage.offeringViolation cid tid) ∧
      (∀ y s, e ≠ VMessage.unitsAbove y s) ∧
      (∀ y s, e ≠ VMessage.unitsBelow y s) := by
  intro e he
  rcases validate_errors_cases schedule requirements available_courses e he with
    ⟨d, rfl⟩ | ⟨p, c, y, s, rfl⟩ | ⟨y, s, rfl⟩ | rfl <;>
    exact ⟨fun _ _ h => VMessage.noConfusion h, fun _ _ h => VMessage.noConfusion h,
      fun _ _ h => VMessage.noConfusion h⟩

/-- Closed instance of round_trip_no_offering_or_unit_errors on the concrete
PB input: the one error the validator reports there is not an offering
violation. -/
theorem round_trip_no_offering_or_unit_errors_witness :
    VMessage.prereqMissing "P" "B" 2025 Term.fall ≠ VMessage.offeringViolation "B" "2025FA" :=
  (round_trip_no_offering_or_unit_errors exProfile [] exCoursesPB exOfferingsPB ["2025FA"]
    assignAll exSchedPB (by decide) (by decide)
    (VMessage.prereqMissing "P" "B" 2025 Term.fall) (by decide)).1 "B" "2025FA"

/-- C1 counterexample: a course B with uncompleted prerequisite P, both
offered in the single planned term, admits the satisfying assignment taking
both in that term (the first-term prerequisite constraint list is empty, so
the source adds no constraint); validating the extracted schedule reports a
prerequisite error, so the round trip does not report zero prerequisite
errors. -/
theorem round_trip_prereq_error_counterexample :
    model_sat exProfile [] exCoursesPB exOfferingsPB ["2025FA"] assignAll = true ∧
    _extract_schedule exCoursesPB ["2025FA"] exProfile assignAll = some exSchedPB ∧
    VMessage.prereqMissing "P" "B" 2025 Term.fall ∈
      (validate_schedule exSchedPB [] exCoursesPB).errors ∧
    (validate_schedule exSchedPB [] exCoursesPB).errors ≠ [] :=
  ⟨by decide, by decide, by decide, by decide⟩

/-- The offering constraint group forces a variable to 0 when the term has
an offering list (the term is a key of the offerings dictionary) that does
not contain the course. -/
theorem offering_forced_zero (student_profile : StudentProfile)
    (requirements : List Requirement) (available_courses : List (String × Course))
    (course_offerings : List (String × List String)) (terms : List String)
    (assign : String → String → Bool)
    (hsat : model_sat student_profile requirements available_courses course_offerings
      terms assign = true)
    (course_id term_id : String) (offered : List String)
    (hcourse : course_id ∈ alist_keys available_courses) (hterm : term_id ∈ terms)
    (hoff : alist_find? course_offerings term_id = some offered)
    (hnot : course_id ∉ offered) : assign course_id term_id = false := by
  have hoc : offering_constraints available_courses course_offerings terms assign = true := by
    simp only [model_sat, Bool.and_eq_true] at hsat
    exact hsat.1.2
  simp only [offering_constraints, List.all_eq_true] at hoc
  have h := hoc course_id hcourse term_id hterm
  rw [hoff] at h
  simpa [hnot] using h

/-- Every course of every term of an extracted schedule stems from an entry
of the course map whose variable is assigned true in that course's term, and
that term is one of the planned term ids. -/
theorem extract_terms_sound (available_courses : List (String × Course))
    (assign : String → String → Bool) :
    ∀ (terms : List String) (scheduled_terms : List ScheduledTerm),
      extract_terms available_courses assign terms = some scheduled_terms →
      ∀ st ∈ scheduled_terms, ∀ sc ∈ st.courses,
        sc.term ∈ terms ∧
        ∃ p ∈ available_courses, p.2 = sc.course ∧ assign p.1 sc.term = true := by
  intro terms
  induction terms with
  | nil =>
    intro scheduled_terms hext st hst
    simp only [extract_terms, Option.some.injEq] at hext
    subst hext
    simp at hst
  | cons t rest ih =>
    intro scheduled_terms hext st hst sc hsc
    cases hy : str_to_int? (t.take 4) with
    | none => simp [extract_terms, hy] at hext
    | some year =>
    cases hs : extract_semester (t.drop 4) with
    | none => simp [extract_terms, hy, hs] at hext
    | some semester =>
    cases hr : extract_terms available_courses assign rest with
    | none => simp [extract_terms, hy, hs, hr] at hext
    | some rest' =>
    simp only [extract_terms, hy, hs, hr, Option.bind_eq_bind, Option.some_bind,
      Option.pure_def, Option.some.injEq] at hext
    have hrest : st ∈ rest' →
        sc.term ∈ t :: rest ∧
        ∃ p ∈ available_courses, p.2 = sc.course ∧ assign p.1 sc.term = true := by
      intro hst'
      obtain ⟨h1, h2⟩ := ih rest' hr st hst' sc hsc
      exact ⟨List.mem_cons_of_mem t h1, h2⟩
    split at hext
    · subst hext
      exact hrest hst
    · subst hext
      rcases List.mem_cons.mp hst with rfl | hst'
      · obtain ⟨p, hp, hif⟩ := List.mem_filterMap.mp hsc
        by_cases ha : assign p.1 t = true
        · rw [if_pos ha, Option.some.injEq] at hif
          subst hif
          exact ⟨List.mem_cons_self t rest, p, hp, rfl, ha⟩
        · rw [if_neg ha] at hif
          exact absurd hif (Option.noConfusion)
      · exact hrest hst'

/-- C2: the built model forces assigned[c][t] = 0 for every course c and
planned term t such that c is not listed in offerings[t] — indexing
offerings[t] presupposes that t is a key of the offerings dictionary, which
the source expresses through its "if term_id in course_offerings" guard (a
missing key cannot be indexed in Python); consequently, in every schedule
generated from a satisfying assignment, every assigned course appears in
offerings[term] for its assigned term whenever that term has an offering
list, where the course map is keyed by course id as solve's contract
states. -/
theorem offering_availability_spec :
    (∀ (student_profile : StudentProfile) (requirements : List Requirement)
        (available_courses : List (String × Course))
        (course_offerings : List (String × List String)) (terms : List String)
        (assign : String → String → Bool),
      model_sat student_profile requirements available_courses course_offerings terms
        assign = true →
      ∀ (course_id term_id : String) (offered : List String),
        course_id ∈ alist_keys available_courses → term_id ∈ terms →
        alist_find? course_offerings term_id = some offered → course_id ∉ offered →
        assign course_id term_id = false) ∧
    (∀ (student_profile : StudentProfile) (requirements : List Requirement)
        (available_courses : List (String × Course))
        (course_offerings : List (String × List String)) (terms : List String)
        (assign : String → String → Bool) (schedule : Schedule),
      model_sat student_profile requirements available_courses course_offerings terms
        assign = true →
      (∀ p ∈ available_courses, (p : String × Course).2.id = p.1) →
      _extract_schedule available_courses terms student_profile assign = some schedule →
      ∀ st ∈ schedule.terms, ∀ sc ∈ st.courses, ∀ offered : List String,
        alist_find? course_offerings sc.term = some offered →
        sc.course.id ∈ offered) := by
  constructor
  · intro student_profile requirements available_courses course_offerings terms assign
      hsat course_id term_id offered hcourse hterm hoff hnot
    exact offering_forced_zero student_profile requirements available_courses
      course_offerings terms assign hsat course_id term_id offered hcourse hterm hoff hnot
  · intro student_profile requirements available_courses course_offerings terms assign
      schedule hsat hkeys hext st hst sc hsc offered hoff
    obtain ⟨scheduled_terms, hterms, hsched⟩ := Option.map_eq_some.mp hext
    have hst' : st ∈ scheduled_terms := by
      rw [← hsched] at hst
      exact hst
    obtain ⟨htm, p, hp, hpc, hpa⟩ :=
      extract_terms_sound available_courses assign terms scheduled_terms hterms st hst' sc hsc
    have hid : sc.course.id = p.1 := by rw [← hpc]; exact hkeys p hp
    by_cases hmem : p.1 ∈ offered
    · rw [hid]; exact hmem
    · have := offering_forced_zero student_profile requirements available_courses
        course_offerings terms assign hsat p.1 sc.term offered
        (List.mem_map.mpr ⟨p, hp, rfl⟩) htm hoff hmem
      rw [hpa] at this
      exact absurd this (by simp)

/-- Closed instance of offering_availability_spec: in a satisfying
assignment over courses A and P where the fall term offers only A, the model
keeps P out of that term. -/
theorem offering_availability_spec_witness :
    assignOnlyA "P" "2025FA" = false :=
  offering_availability_spec.1 exProfile [] [("A", exCourseA), ("P", exCourseP)]
    [("2025FA", ["A"])] ["2025FA"] assignOnlyA (by decide) "P" "2025FA" ["A"]
    (by decide) (by decide) (by decide) (by decide)

/-- C3 (amended): whenever the available-course map is nonempty, every
satisfying assignment of the built model keeps each planned term's unit sum
between 12 and the student's max_units_per_term preference (or the
configured default of 60); with an empty course map the source skips the
constraint entirely (see the counterexample), and a schedule is only ever
produced from a satisfying assignment, so an unsatisfiable bound yields
no-solution rather than a bound-violating schedule. -/
theorem unit_bounds_hold_when_courses_exist
    (student_profile : StudentProfile) (requirements : List Requirement)
    (available_courses : List (String × Course))
    (course_offerings : List (String × List String)) (terms : List String)
    (assign : String → String → Bool)
    (hsat : model_sat student_profile requirements available_courses course_offerings
      terms assign = true)
    (hne : available_courses ≠ []) (term_id : String) (hterm : term_id ∈ terms) :
    12 ≤ term_units_sum available_courses term_id assign ∧
    term_units_sum available_courses term_id assign ≤ max_units student_profile := by
  have huc : unit_constraints available_courses terms (max_units student_profile)
      assign = true := by
    simp only [model_sat, Bool.and_eq_true] at hsat
    exact hsat.2
  simp only [unit_constraints, List.all_eq_true] at huc
  have h := huc term_id hterm
  rw [if_neg] at h
  · simp only [Bool.and_eq_true, decide_eq_true_eq, ge_iff_le] at h
    exact ⟨h.2, h.1⟩
  · simpa [List.isEmpty_iff] using hne

/-- Closed instance of unit_bounds_hold_when_courses_exist at the one-course
input: the single term carries exactly 12 units, within the default bound. -/
theorem unit_bounds_hold_when_courses_exist_witness :
    12 ≤ term_units_sum [("A", exCourseA)] "2025FA" assignAll ∧
    term_units_sum [("A", exCourseA)] "2025FA" assignAll ≤ max_units exProfile :=
  unit_bounds_hold_when_courses_exist exProfile [] [("A", exCourseA)]
    [("2025FA", ["A"])] ["2025FA"] assignAll (by decide) (by decide) "2025FA" (by decide)

/-- C3 counterexample: with no available courses the source adds no unit
constraint, so the model is satisfied while the planned term's unit sum is 0,
below the claimed lower bound of 12. -/
theorem unit_bounds_empty_courses_counterexample :
    model_sat exProfile [] [] [] ["2025FA"] assignAll = true ∧
    term_units_sum [] "2025FA" assignAll = 0 ∧
    ¬(12 ≤ term_units_sum [] "2025FA" assignAll) :=
  ⟨by decide, by decide, by decide⟩

/-- The balance factor 1 / (1 + variance / 100) times a nonnegative weight is
nonnegative: the variance is a mean of squares. -/
theorem balance_score_mul_nonneg (tu : List ℚ) (w : ℚ) (hw : 0 ≤ w) :
    0 ≤ (1 : ℚ) / (1 + ((tu.map fun u => (u - tu.sum / (tu.length : ℚ)) ^ 2).sum /
      (tu.length : ℚ)) / 100) * w := by
  have hvar : (0 : ℚ) ≤ (tu.map fun u => (u - tu.sum / (tu.length : ℚ)) ^ 2).sum /
      (tu.length : ℚ) := by
    apply div_nonneg
    · apply List.sum_nonneg
      intro x hx
      obtain ⟨u, _, rfl⟩ := List.mem_map.mp hx
      exact sq_nonneg _
    · exact_mod_cast Nat.zero_le _
  have hpos : (0 : ℚ) < 1 + ((tu.map fun u => (u - tu.sum / (tu.length : ℚ)) ^ 2).sum /
      (tu.length : ℚ)) / 100 := by
    have : (0 : ℚ) ≤ ((tu.map fun u => (u - tu.sum / (tu.length : ℚ)) ^ 2).sum /
        (tu.length : ℚ)) / 100 := div_nonneg hvar (by norm_num)
    linarith
  exact mul_nonneg (le_of_lt (one_div_pos.mpr hpos)) hw

/-- C8 (amended): _calculate_score computes the per-term unit-total variance,
feeds it into balance_score = 1 / (1 + variance / 100), multiplies by the
balance_workload weight and clamps from above by 1; a schedule with no terms
scores 0, and no preference key other than balance_workload influences the
result.  The result lies in [0, 1] whenever the balance_workload weight is
nonnegative — the source's min(1.0, score) clamps only from above, so a
negative weight escapes the interval (see the counterexample). -/
theorem calculate_score_spec :
    (∀ (schedule : Schedule) (preferences : List (String × ℚ)),
      0 ≤ pref_get preferences "balance_workload" (1 / 2) →
      0 ≤ _calculate_score schedule preferences ∧ _calculate_score schedule preferences ≤ 1) ∧
    (∀ (schedule : Schedule) (preferences : List (String × ℚ)), schedule.terms = [] →
      _calculate_score schedule preferences = 0) ∧
    (∀ (schedule : Schedule) (p1 p2 : List (String × ℚ)),
      pref_get p1 "balance_workload" (1 / 2) = pref_get p2 "balance_workload" (1 / 2) →
      _calculate_score schedule p1 = _calculate_score schedule p2) := by
  refine ⟨?_, ?_, ?_⟩
  · intro schedule preferences hw
    have key : ∀ x : ℚ, 0 ≤ x → 0 ≤ min 1 x ∧ min 1 x ≤ 1 := fun x hx =>
      ⟨le_min (by norm_num) hx, min_le_left 1 x⟩
    simp only [_calculate_score]
    refine key _ ?_
    split_ifs with h
    · exact le_refl 0
    · rw [zero_add]
      exact balance_score_mul_nonneg _ _ hw
  · intro schedule preferences h
    simp only [_calculate_score, h, List.map_nil, List.isEmpty_nil, if_true]
    exact min_eq_right (by norm_num)
  · intro schedule p1 p2 h
    simp only [_calculate_score, h]

/-- Closed instance of calculate_score_spec: with the default weight (empty
preference map) the score of exSchedA36 lies in [0, 1]. -/
theorem calculate_score_spec_witness :
    0 ≤ _calculate_score exSchedA36 [] ∧ _calculate_score exSchedA36 [] ≤ 1 :=
  calculate_score_spec.1 exSchedA36 []
    (by norm_num [pref_get, alist_find?, List.find?_nil])

/-- C8 counterexample: with the preference map sending balance_workload to
-1, the single-term schedule exSchedA36 has variance 0, balance score 1, and
total score -1, which min(1.0, score) does not clamp — the result is outside
[0, 1]. -/
theorem calculate_score_negative_counterexample :
    _calculate_score exSchedA36 [("balance_workload", -1)] = -1 ∧
    _calculate_score exSchedA36 [("balance_workload", -1)] < 0 := by
  have h : _calculate_score exSchedA36 [("balance_workload", -1)] = -1 := by
    norm_num [_calculate_score, exSchedA36, exCourseA36, ScheduledTerm.total_units,
      pref_get, alist_find?, min_def]
  exact ⟨h, by rw [h]; norm_num⟩

/-- A key absent from an association list looks up to none. -/
theorem alist_find?_eq_none_of_not_mem {α : Type} (m : List (String × α)) (k : String)
    (h : k ∉ alist_keys m) : alist_find? m k = none := by
  unfold alist_find?
  have hf : List.find? (fun p => p.1 == k) m = none := by
    rw [List.find?_eq_none]
    intro p hp
    simp only [beq_iff_eq]
    intro heq
    exact h (List.mem_map.mpr ⟨p, hp, heq⟩)
  rw [hf]
  rfl

/-- The unit sum of _check_requirement's units branch ignores scheduled ids
that are not keys of the course map. -/
theorem scheduled_units_filter_known (scheduled_courses : List String) (cat : String)
    (available_courses : List (String × Course)) :
    ((scheduled_courses.filter fun cid =>
        decide (cid ∈ alist_keys available_courses)).filterMap fun cid =>
      match alist_find? available_courses cid with
      | some course =>
        if decide (cat ∈ course.meets_requirements) then some course.units else none
      | none => none) =
    (scheduled_courses.filterMap fun cid =>
      match alist_find? available_courses cid with
      | some course =>
        if decide (cat ∈ course.meets_requirements) then some course.units else none
      | none => none) := by
  induction scheduled_courses with
  | nil => rfl
  | cons c cs ih =>
    by_cases hc : c ∈ alist_keys available_courses
    · rw [List.filter_cons, if_pos (decide_eq_true hc), List.filterMap_cons,
        List.filterMap_cons, ih]
    · have hf := alist_find?_eq_none_of_not_mem available_courses c hc
      rw [List.filter_cons, if_neg (by simp [hc])]
      conv_rhs => rw [List.filterMap_cons]
      simp only [hf]
      exact ih

/-- C9 (amended): a requirement referencing a course id absent from the
course map is skipped without aborting — the builder's specific_course
constraint is unchanged when unknown allowed ids are dropped, the
validator's units check is unchanged when unknown scheduled ids are dropped,
and every requirement is still evaluated — but the skip is silent: the only
warnings validate_schedule ever surfaces are the per-term unit-load band
warnings, never a malformed-input warning (see the counterexample). -/
theorem unknown_course_skip_silent :
    (∀ (req : Requirement) (available_courses : List (String × Course))
        (terms : List String) (assign : String → String → Bool),
      req.rule_type = RequirementType.specific_course →
      requirement_constraint req available_courses terms assign =
        requirement_constraint
          { req with courses_allowed := req.courses_allowed.map fun allowed =>
              allowed.filter fun cid => decide (cid ∈ alist_keys available_courses) }
          available_courses terms assign) ∧
    (∀ (req : Requirement) (scheduled_courses : List String)
        (available_courses : List (String × Course)),
      req.rule_type = RequirementType.units →
      _check_requirement req scheduled_courses available_courses =
        _check_requirement req
          (scheduled_courses.filter fun cid => decide (cid ∈ alist_keys available_courses))
          available_courses) ∧
    (∀ (schedule : Schedule) (requirements : List Requirement)
        (available_courses : List (String × Course)),
      schedule_validation_raises schedule = false →
      (validate_schedule schedule requirements available_courses).requirements_satisfied.map
        Prod.fst = requirements.map Requirement.id) ∧
    (∀ (schedule : Schedule) (requirements : List Requirement)
        (available_courses : List (String × Course)),
      ∀ w ∈ (validate_schedule schedule requirements available_courses).warnings,
        ∃ y s, w = VMessage.unitsAbove y s ∨ w = VMessage.unitsBelow y s) := by
  refine ⟨?_, ?_, ?_, ?_⟩
  · intro req available_courses terms assign hrule
    simp only [requirement_constraint, hrule]
    cases hca : req.courses_allowed with
    | none => rfl
    | some allowed =>
      simp only [Option.map_some]
      by_cases hA : allowed.isEmpty
      · rw [List.isEmpty_iff] at hA
        subst hA
        simp
      · simp only [hA, if_false, List.filter_filter, Bool.and_self]
        by_cases hK : (allowed.filter fun cid =>
            decide (cid ∈ alist_keys available_courses)).isEmpty
        · simp [hK]
        · simp [hK]
  · intro req scheduled_courses available_courses hrule
    simp only [_check_requirement, hrule]
    cases req.category with
    | none => rfl
    | some cat =>
      by_cases hc : cat = ""
      · simp [hc]
      · simp only [hc, if_false]
        rw [scheduled_units_filter_known]
  · intro schedule requirements available_courses hraise
    simp only [validate_schedule, hraise, Bool.false_eq_true, if_false, List.map_map]
    rfl
  · intro schedule requirements available_courses w hw
    by_cases hraise : schedule_validation_raises schedule = true
    · simp only [validate_schedule, hraise, if_true, List.not_mem_nil] at hw
    · rw [Bool.not_eq_true] at hraise
      simp only [validate_schedule, hraise, Bool.false_eq_true, if_false,
        validation_unit_warnings, List.mem_flatMap] at hw
      obtain ⟨t, _, hw⟩ := hw
      split_ifs at hw <;> simp only [List.mem_singleton, List.not_mem_nil] at hw
      · exact ⟨t.year, t.semester, Or.inl hw⟩
      · exact ⟨t.year, t.semester, Or.inr hw⟩

/-- Closed instance of unknown_course_skip_silent: dropping the unknown id X
from the concrete requirement exReqXA leaves the built constraint
unchanged. -/
theorem unknown_course_skip_silent_witness :
    requirement_constraint exReqXA [("A", exCourseA36)] ["2025FA"] assignAll =
      requirement_constraint
        { exReqXA with courses_allowed := exReqXA.courses_allowed.map fun allowed =>
            allowed.filter fun cid => decide (cid ∈ alist_keys [("A", exCourseA36)]) }
        [("A", exCourseA36)] ["2025FA"] assignAll :=
  unknown_course_skip_silent.1 exReqXA [("A", exCourseA36)] ["2025FA"] assignAll rfl

/-- C9 counterexample: the requirement exReqXA references the unknown course
id X; validating exSchedA36 against it skips X, satisfies the requirement
through A, and returns with no warnings at all — the skip is not surfaced as
a warning. -/
theorem unknown_course_no_warning_counterexample :
    ¬("X" ∈ alist_keys [("A", exCourseA36)]) ∧
    "X" ∈ exReqXA.courses_allowed.getD [] ∧
    (validate_schedule exSchedA36 [exReqXA] [("A", exCourseA36)]).warnings = [] ∧
    (validate_schedule exSchedA36 [exReqXA] [("A", exCourseA36)]).errors = [] :=
  ⟨by decide, by decide, by decide, by decide⟩

end ScheduleAdvisor
